import Mathlib

/-!
Shallow embedding of the PARMCO Bluetooth motor-control server
(src/final/parmco_server.c, with the hysteretic variant src/unnamed/part_002
and the physics-check variant src/unnamed/part_004 where a claim cites them).

Modelling conventions:
- C `int` globals become `Int` fields of one state record `SrvState`;
  GPIO pins written by the code (master enable, the two direction outputs,
  the PWM duty) are fields of the same record, so `gpio_read` of a direction
  pin returns the last written value.
- C `double` arithmetic is modelled exactly over `ℚ`; the decimal constants
  0.01, 0.005, 50.0, 0.5, 0.8 become the exact rationals 1/100, 1/200, 50,
  1/2, 4/5.  A `(int)` cast of a double is truncation toward zero (`truncQ`).
  Every concrete value a theorem evaluates is far from an integer boundary,
  so the exact-rational results coincide with IEEE double results there.
- `atoi` is modelled per glibc on an LP64 platform: the digit string (at most
  15 digits, so its value fits a 64-bit long exactly) is converted to a
  64-bit value and then wrapped to a signed 32-bit `int` (`toInt32`).
- The tachometer tick takes the already computed instantaneous reading
  `raw_rpm` as a parameter; the pulse-count-to-rpm conversion itself is
  floating point and outside every claim.
- Calls to printf and the pigpio daemon handle are I/O only and are dropped;
  the `if (pi >= 0)` guard in stop_all_activity guards hardware writes that
  are always performed in the model.
-/

/-- ControlMode enum from parmco_server.c line 80. -/
inductive ControlMode
  | MANUAL_MODE
  | AUTO_MODE
deriving DecidableEq, Repr

/-- ParseState enum from parmco_server.c line 89. -/
inductive ParseState
  | STATE_NORMAL
  | STATE_WAIT_COLON
  | STATE_READ_NUM
deriving DecidableEq, Repr

/-- Command datatype of the spec (section 3): the parser emits either a
single-character command or a parsed set-target token. -/
inductive Command
  | SimpleChar (c : Char)
  | SetTargetRpm (n : Int)
deriving DecidableEq, Repr

/-- Global mutable state of parmco_server.c (lines 73-92) together with the
four output pins the program writes (MASTER_ON_PIN, DIR_A_PIN, DIR_B_PIN and
the PWM duty on SPEED_PIN). `num_buffer` holds the digits written so far, so
its length plays the role of `num_buf_idx`. -/
structure SrvState where
  speed_percent : Int
  revolution_count : Int
  rpm : Int
  rpm_smooth : Int
  current_mode : ControlMode
  motor_running : Bool
  desired_rpm : Int
  pid_integral : ℚ
  pid_last_error : ℚ
  p_state : ParseState
  num_buffer : List Char
  master_on : Bool
  dir_a : Bool
  dir_b : Bool
  pwm_duty : Int
deriving DecidableEq, Repr

/-- Truncation toward zero, the semantics of a C `(int)` cast of a double
(for a negative argument the ceiling, written through the floor). -/
def truncQ (x : ℚ) : Int := if 0 ≤ x then ⌊x⌋ else -⌊-x⌋

/-- Value of the digit buffer as a natural number (the digits are ASCII,
48 = code of the zero digit). -/
def digitsVal (buf : List Char) : Nat :=
  buf.foldl (fun n c => 10 * n + (c.toNat - 48)) 0

/-- Wrap a 64-bit-exact nonnegative value to a signed 32-bit int, the effect
of glibc atoi (via strtol returning long) on an LP64 platform. -/
def toInt32 (n : Nat) : Int :=
  let m := n % 4294967296
  if m < 2147483648 then (m : Int) else (m : Int) - 4294967296

/-- Model of `atoi(num_buffer)` (parmco_server.c line 229): the buffer holds
at most 15 decimal digits, whose value fits a 64-bit long exactly and is then
converted to a 32-bit int. -/
def atoi (buf : List Char) : Int := toInt32 (digitsVal buf)

/-- Model of C `isdigit` on the ASCII digits (ctype.h). -/
def isdigit (c : Char) : Bool := c.isDigit

/-- stop_all_activity (parmco_server.c lines 107-123): PWM duty 0, both
direction pins low (coast), master enable low, all counters and accumulators
zeroed, parser returned to STATE_NORMAL.  `current_mode` and the digit buffer
are not touched. -/
def stop_all_activity (s : SrvState) : SrvState :=
  { s with
    pwm_duty := 0
    dir_a := false
    dir_b := false
    master_on := false
    speed_percent := 0
    revolution_count := 0
    rpm := 0
    rpm_smooth := 0
    motor_running := false
    desired_rpm := 0
    pid_integral := 0
    pid_last_error := 0
    p_state := ParseState.STATE_NORMAL }

/-- update_pid_controller (parmco_server.c lines 131-156).  PID_KP = 0.01,
PID_KI = 0.005, PID_KD = 0.0, integral clamp ±50, MAX_CHANGE_PER_LOOP = 5,
speed clamped to [0,100]; the new duty `speed_percent * 10000` is written to
the PWM pin. -/
def update_pid_controller (s : SrvState) : SrvState :=
  if s.current_mode ≠ ControlMode.AUTO_MODE ∨ s.motor_running = false then s
  else
    let error : ℚ := (s.desired_rpm : ℚ) - (s.rpm_smooth : ℚ)
    let i1 : ℚ := s.pid_integral + error
    let i2 : ℚ := if i1 > 50 then 50 else i1
    let i3 : ℚ := if i2 < -50 then -50 else i2
    let derivative : ℚ := error - s.pid_last_error
    let output : ℚ := (1 / 100) * error + (1 / 200) * i3 + 0 * derivative
    let c0 : Int := truncQ output
    let c1 : Int := if c0 > 5 then 5 else c0
    let change : Int := if c1 < -5 then -5 else c1
    let sp0 : Int := s.speed_percent + change
    let sp1 : Int := if sp0 > 100 then 100 else sp0
    let sp : Int := if sp1 < 0 then 0 else sp1
    { s with
      pid_integral := i3
      speed_percent := sp
      pwm_duty := sp * 10000
      pid_last_error := error }

/-- process_command (parmco_server.c lines 159-212).  The C switch becomes a
chain of equality tests; a byte matching no case is a no-op. -/
def process_command (cmd : Char) (s : SrvState) : SrvState :=
  if cmd = 's' then
    { s with master_on := true, motor_running := true,
             pid_integral := 0, pid_last_error := 0 }
  else if cmd = 'x' then
    stop_all_activity s
  else if cmd = 'c' then
    { s with dir_a := false, dir_b := true }
  else if cmd = 'v' then
    { s with dir_a := true, dir_b := false }
  else if cmd = 'f' then
    if s.current_mode = ControlMode.MANUAL_MODE then
      let sp0 := s.speed_percent + 10
      let sp := if sp0 > 100 then 100 else sp0
      { s with speed_percent := sp, pwm_duty := sp * 10000 }
    else s
  else if cmd = 'd' then
    if s.current_mode = ControlMode.MANUAL_MODE then
      let sp0 := s.speed_percent - 10
      let sp := if sp0 < 0 then 0 else sp0
      { s with speed_percent := sp, pwm_duty := sp * 10000 }
    else s
  else if cmd = 'a' then
    let dira := if s.dir_a = false ∧ s.dir_b = false then false else s.dir_a
    let dirb := if s.dir_a = false ∧ s.dir_b = false then true else s.dir_b
    let d := if s.desired_rpm = 0 then 500 else s.desired_rpm
    { s with current_mode := ControlMode.AUTO_MODE, motor_running := true,
             master_on := true, dir_a := dira, dir_b := dirb, desired_rpm := d,
             pid_integral := 0, pid_last_error := 0 }
  else if cmd = 'm' then
    { s with current_mode := ControlMode.MANUAL_MODE }
  else if cmd = '+' then
    if s.current_mode = ControlMode.AUTO_MODE then
      { s with desired_rpm := s.desired_rpm + 100 }
    else s
  else if cmd = '-' then
    if s.current_mode = ControlMode.AUTO_MODE then
      let d0 := s.desired_rpm - 100
      { s with desired_rpm := if d0 < 0 then 0 else d0 }
    else s
  else s

/-- Parser-only view of the state machine: the fields p_state and num_buffer
of SrvState, on which parse_input_byte's transitions depend. -/
structure ParserSt where
  st : ParseState
  buf : List Char
deriving DecidableEq, Repr

/-- One step of the parser state machine of parse_input_byte (parmco_server.c
lines 214-245), factored to return the Commands the step emits: a call of
process_command(c) becomes SimpleChar c, and the `desired_rpm = atoi(...)`
flush together with its AUTO-entry side effects becomes SetTargetRpm.  The
buffer is bounded to 15 digits and is cleared on the colon, exactly as
`num_buf_idx = 0; memset(...)` does. -/
def parse_step (c : Char) (ps : ParserSt) : ParserSt × List Command :=
  match ps.st with
  | ParseState.STATE_NORMAL =>
      if c = 'r' then ({ ps with st := ParseState.STATE_WAIT_COLON }, [])
      else (ps, [Command.SimpleChar c])
  | ParseState.STATE_WAIT_COLON =>
      if c = ':' then ({ st := ParseState.STATE_READ_NUM, buf := [] }, [])
      else ({ ps with st := ParseState.STATE_NORMAL }, [Command.SimpleChar c])
  | ParseState.STATE_READ_NUM =>
      if isdigit c then
        if ps.buf.length < 15 then ({ ps with buf := ps.buf ++ [c] }, [])
        else (ps, [])
      else
        let emitted := if ps.buf.length > 0 then
            [Command.SetTargetRpm (atoi ps.buf)] else []
        let tail := if c ≠ '\n' ∧ c ≠ '\r' then [Command.SimpleChar c] else []
        ({ ps with st := ParseState.STATE_NORMAL }, emitted ++ tail)

/-- Effect of one emitted Command on the full state.  SimpleChar executes
process_command; SetTargetRpm performs lines 229-238 of parmco_server.c:
set desired_rpm, and when not already in AUTO_MODE also enter it (motor on,
master enable high, default direction if both pins are low). -/
def exec_command (cmd : Command) (s : SrvState) : SrvState :=
  match cmd with
  | Command.SimpleChar c => process_command c s
  | Command.SetTargetRpm n =>
      if s.current_mode ≠ ControlMode.AUTO_MODE then
        let dira := if s.dir_a = false ∧ s.dir_b = false then false else s.dir_a
        let dirb := if s.dir_a = false ∧ s.dir_b = false then true else s.dir_b
        { s with desired_rpm := n, current_mode := ControlMode.AUTO_MODE,
                 motor_running := true, master_on := true,
                 dir_a := dira, dir_b := dirb }
      else { s with desired_rpm := n }

/-- parse_input_byte (parmco_server.c lines 214-245) on the full state: run
the parser step on the p_state/num_buffer fields, then execute the emitted
commands in order.  In every branch the C code assigns the new parser state
before it calls process_command or the SetTargetRpm block, and the
SetTargetRpm block never touches p_state, so this ordering is exact. -/
def parse_input_byte (c : Char) (s : SrvState) : SrvState :=
  let pc := parse_step c { st := s.p_state, buf := s.num_buffer }
  pc.2.foldl (fun st cmd => exec_command cmd st)
    { s with p_state := pc.1.st, num_buffer := pc.1.buf }

/-- The per-read loop of main (parmco_server.c lines 344-347): each received
byte is fed to parse_input_byte in order. -/
def feed_bytes (s : SrvState) (cs : List Char) : SrvState :=
  cs.foldl (fun st c => parse_input_byte c st) s

/-- Smoothing step of the final server's tick (parmco_server.c line 323)
with RPM_SMOOTHING = 0.5: the accepted reading updates the smoothed value to
the truncated mean of the old smoothed value and the reading. -/
def rpm_update (sm raw : Int) : Int := truncQ (((sm : ℚ) + (raw : ℚ)) / 2)

/-- Per-tick RPM evaluation of the final server (parmco_server.c lines
312-328), taking the computed instantaneous reading as parameter: readings
above MAX_PHYSICS_RPM = 12000 are ignored, any other reading is stored and
smoothed; the pulse counter is reset either way. -/
def rpm_tick (s : SrvState) (raw_rpm : Int) : SrvState :=
  let s1 :=
    if raw_rpm > 12000 then s
    else { s with rpm := raw_rpm, rpm_smooth := rpm_update s.rpm_smooth raw_rpm }
  { s1 with revolution_count := 0 }

/-- One full control tick of the final server: RPM evaluation followed by
update_pid_controller (parmco_server.c lines 312-328). -/
def control_tick (s : SrvState) (raw_rpm : Int) : SrvState :=
  update_pid_controller (rpm_tick s raw_rpm)

/-- Smoothing step of the physics-check variant (src/unnamed/part_004 lines
276-284): a reading more than 3 times the smoothed value while the smoothed
value is above 200 is rejected (previous smoothed value held); otherwise the
reading is smoothed with RPM_SMOOTHING = 0.8. -/
def rpm_update_p004 (sm raw : Int) : Int :=
  if sm > 200 ∧ raw > sm * 3 then sm
  else truncQ ((4 * (sm : ℚ) + (raw : ℚ)) / 5)

/-- update_control_loop of the hysteretic variant (src/unnamed/part_002
lines 102-146): target 0 commands power 0 at once; a zero reading with a
positive target holds power; otherwise power steps by ±1 outside the ±25
deadband; final clamps to [0,100] and the duty is applied. -/
def update_control_loop_p002 (s : SrvState) : SrvState :=
  if s.current_mode ≠ ControlMode.AUTO_MODE ∨ s.motor_running = false then s
  else
    let sp0 : Int :=
      if s.desired_rpm = 0 then 0
      else if s.rpm_smooth = 0 ∧ s.desired_rpm > 0 then s.speed_percent
      else
        let error := s.desired_rpm - s.rpm_smooth
        if error > 25 then s.speed_percent + 1
        else if error < -25 then s.speed_percent - 1
        else s.speed_percent
    let sp1 := if sp0 > 100 then 100 else sp0
    let sp := if sp1 < 0 then 0 else sp1
    { s with speed_percent := sp, pwm_duty := sp * 10000 }

/-- State of the globals at program start, after main's initial call of
stop_all_activity (parmco_server.c line 271); current_mode starts as
MANUAL_MODE (line 81). -/
def initState : SrvState :=
  stop_all_activity
    { speed_percent := 0, revolution_count := 0, rpm := 0, rpm_smooth := 0,
      current_mode := ControlMode.MANUAL_MODE, motor_running := false,
      desired_rpm := 0, pid_integral := 0, pid_last_error := 0,
      p_state := ParseState.STATE_NORMAL, num_buffer := [],
      master_on := false, dir_a := false, dir_b := false, pwm_duty := 0 }

/-- Run the parser over one chunk of bytes (one network read), threading the
parser state and concatenating the emitted Commands in order, exactly as the
read loop of main feeds each received byte to parse_input_byte. -/
def parse_chunk : ParserSt → List Char → ParserSt × List Command
  | ps, [] => (ps, [])
  | ps, c :: rest =>
      let r1 := parse_step c ps
      let r2 := parse_chunk r1.1 rest
      (r2.1, r1.2 ++ r2.2)

/-- Run the parser over a sequence of chunks (successive reads), threading
the parser state across chunk boundaries. -/
def parse_chunks : ParserSt → List (List Char) → ParserSt × List Command
  | ps, [] => (ps, [])
  | ps, chunk :: rest =>
      let r1 := parse_chunk ps chunk
      let r2 := parse_chunks r1.1 rest
      (r2.1, r1.2 ++ r2.2)

/-- Concrete state for claim C1: the startup state with smoothed rpm 1000. -/
def c1State : SrvState := { initState with rpm_smooth := 1000 }

/-- Concrete state for claim C5: manual mode with nonzero error accumulators
(reachable, e.g. after auto-mode ticks followed by a SwitchToManual). -/
def c5State : SrvState := { initState with pid_integral := 7, pid_last_error := 3 }

/-- Concrete state for claim C6: automatic mode, master power on, target 0,
smoothed rpm 1000, commanded power 50. -/
def c6State : SrvState :=
  { initState with current_mode := ControlMode.AUTO_MODE, motor_running := true,
                   master_on := true, rpm_smooth := 1000, speed_percent := 50 }

/-- Concrete state for claim C7: automatic mode with commanded power 40. -/
def c7State : SrvState :=
  { initState with current_mode := ControlMode.AUTO_MODE, motor_running := true,
                   master_on := true, speed_percent := 40, desired_rpm := 500 }

/-- One step of the power-relevant operations claim C3 quantifies over:
a Faster command, a Slower command, or a closed-loop control tick with some
instantaneous reading. -/
inductive CStep
  | faster
  | slower
  | tick (raw_rpm : Int)

/-- Apply one CStep to the state. -/
def applyCStep (s : SrvState) (st : CStep) : SrvState :=
  match st with
  | CStep.faster => process_command 'f' s
  | CStep.slower => process_command 'd' s
  | CStep.tick raw => control_tick s raw

/-! Theorems.  One theorem per claim (with a counterexample theorem where the
claim as stated fails on the code, and a witness theorem where the claim
theorem carries hypotheses). -/

theorem stop_all_activity_idem (s : SrvState) :
    stop_all_activity (stop_all_activity s) = stop_all_activity s := rfl

/-- C1 counterexample: on the final server's control tick, with smoothed rpm
1000 an instantaneous reading of 3500 is accepted (the only rejection
threshold is MAX_PHYSICS_RPM = 12000) and moves the smoothed value to 2250,
so a reading greater than 3 times the smoothed value does change
smoothed_rpm, contrary to the claim. -/
theorem C1_counterexample :
    c1State.rpm_smooth = 1000 ∧
    (control_tick c1State 3500).rpm_smooth = 2250 ∧ ((2250 : Int) ≠ 1000) := by
  refine ⟨rfl, ?_, by decide⟩
  norm_num [control_tick, rpm_tick, rpm_update, truncQ, update_pid_controller,
    c1State, initState, stop_all_activity]

/-- C1 amended: the greater-than-3-times outlier rejection exists in the
physics-check variant (src/unnamed/part_004): there, with smoothed rpm 1000,
a reading of 3500 is rejected (smoothed stays 1000) while a reading of 1100
is accepted and updates the smoothed value to 1020 under its 0.8 smoothing.
The final server accepts 3500 outright (see the counterexample) and a
reading of 1100 updates its smoothed value to 1050 under 0.5 smoothing. -/
theorem C1_outlier_rejection :
    rpm_update_p004 1000 3500 = 1000 ∧
    rpm_update_p004 1000 1100 = 1020 ∧
    (control_tick c1State 1100).rpm_smooth = 1050 := by
  refine ⟨by decide, ?_, ?_⟩
  · norm_num [rpm_update_p004, truncQ]
  · norm_num [control_tick, rpm_tick, rpm_update, truncQ, update_pid_controller,
      c1State, initState, stop_all_activity]

/-- C2: calling all-stop N times in a row (N at least 1) yields exactly the
same state as calling it once, from every starting state (including the
start-up state, before any client has connected); the resulting state has
power 0, PWM duty 0, both direction outputs inactive (coast), master enable
de-asserted, all controller and tachometer accumulators zero, and the parser
in STATE_NORMAL. -/
theorem C2_allstop_idempotent (s : SrvState) (n : Nat) (h : 1 ≤ n) :
    stop_all_activity^[n] s = stop_all_activity s ∧
    (stop_all_activity s).speed_percent = 0 ∧
    (stop_all_activity s).pwm_duty = 0 ∧
    (stop_all_activity s).dir_a = false ∧
    (stop_all_activity s).dir_b = false ∧
    (stop_all_activity s).master_on = false ∧
    (stop_all_activity s).motor_running = false ∧
    (stop_all_activity s).desired_rpm = 0 ∧
    (stop_all_activity s).rpm = 0 ∧
    (stop_all_activity s).rpm_smooth = 0 ∧
    (stop_all_activity s).revolution_count = 0 ∧
    (stop_all_activity s).pid_integral = 0 ∧
    (stop_all_activity s).pid_last_error = 0 ∧
    (stop_all_activity s).p_state = ParseState.STATE_NORMAL := by
  refine ⟨?_, rfl, rfl, rfl, rfl, rfl, rfl, rfl, rfl, rfl, rfl, rfl, rfl, rfl⟩
  induction n with
  | zero => omega
  | succ m ih =>
    rcases Nat.eq_zero_or_pos m with hm | hm
    · subst hm; rfl
    · rw [Function.iterate_succ_apply', ih hm, stop_all_activity_idem]

theorem C2_witness :
    stop_all_activity^[3] initState = stop_all_activity initState ∧
    (stop_all_activity initState).speed_percent = 0 :=
  ⟨(C2_allstop_idempotent initState 3 (by decide)).1,
   (C2_allstop_idempotent initState 3 (by decide)).2.1⟩

theorem update_pid_bounds (s : SrvState)
    (h0 : 0 ≤ s.speed_percent) (h1 : s.speed_percent ≤ 100) :
    0 ≤ (update_pid_controller s).speed_percent ∧
      (update_pid_controller s).speed_percent ≤ 100 := by
  unfold update_pid_controller
  split
  · exact ⟨h0, h1⟩
  · dsimp only
    split_ifs <;> omega

theorem applyCStep_bounds (s : SrvState) (st : CStep)
    (h0 : 0 ≤ s.speed_percent) (h1 : s.speed_percent ≤ 100) :
    0 ≤ (applyCStep s st).speed_percent ∧ (applyCStep s st).speed_percent ≤ 100 := by
  cases st with
  | faster =>
    simp only [applyCStep]
    unfold process_command
    simp only [Char.reduceEq, reduceIte]
    split
    · dsimp only
      split_ifs <;> omega
    · exact ⟨h0, h1⟩
  | slower =>
    simp only [applyCStep]
    unfold process_command
    simp only [Char.reduceEq, reduceIte]
    split
    · dsimp only
      split_ifs <;> omega
    · exact ⟨h0, h1⟩
  | tick raw =>
    simp only [applyCStep, control_tick]
    have h2 : (rpm_tick s raw).speed_percent = s.speed_percent := by
      unfold rpm_tick
      split <;> rfl
    exact ⟨(update_pid_bounds _ (h2 ▸ h0) (h2 ▸ h1)).1,
           (update_pid_bounds _ (h2 ▸ h0) (h2 ▸ h1)).2⟩

/-- C3: for every sequence of Faster and Slower commands and closed-loop
control ticks (in any interleaving, with arbitrary instantaneous readings),
starting from power_percent in the interval 0..100, the resulting
power_percent never leaves 0..100. -/
theorem C3_power_clamped (steps : List CStep) (s : SrvState)
    (h0 : 0 ≤ s.speed_percent) (h1 : s.speed_percent ≤ 100) :
    0 ≤ (steps.foldl applyCStep s).speed_percent ∧
      (steps.foldl applyCStep s).speed_percent ≤ 100 := by
  induction steps generalizing s with
  | nil => exact ⟨h0, h1⟩
  | cons st rest ih =>
    simp only [List.foldl]
    exact ih (applyCStep s st) (applyCStep_bounds s st h0 h1).1
      (applyCStep_bounds s st h0 h1).2

theorem C3_witness :
    0 ≤ (([CStep.faster, CStep.faster, CStep.tick 200,
        CStep.slower].foldl applyCStep initState)).speed_percent ∧
      (([CStep.faster, CStep.faster, CStep.tick 200,
        CStep.slower].foldl applyCStep initState)).speed_percent ≤ 100 :=
  C3_power_clamped [CStep.faster, CStep.faster, CStep.tick 200, CStep.slower]
    initState (by decide) (by decide)

theorem parse_chunk_append (a b : List Char) (ps : ParserSt) :
    parse_chunk ps (a ++ b) =
      ((parse_chunk (parse_chunk ps a).1 b).1,
        (parse_chunk ps a).2 ++ (parse_chunk (parse_chunk ps a).1 b).2) := by
  induction a generalizing ps with
  | nil => simp [parse_chunk]
  | cons c rest ih => simp [parse_chunk, ih]

theorem parse_chunks_eq_flatten (parts : List (List Char)) (ps : ParserSt) :
    parse_chunks ps parts = parse_chunk ps parts.flatten := by
  induction parts generalizing ps with
  | nil => simp [parse_chunks, parse_chunk]
  | cons chunk rest ih => simp [parse_chunks, parse_chunk_append, ih]

/-- C4: feeding the parser a byte stream split into any sequence of chunks
produces the same final parser state and the same sequence of emitted
Commands as feeding the concatenated stream as a single chunk; in particular
the five reads r, colon, 15, 00, x emit exactly one SetTargetRpm 1500
followed by one SimpleChar x. -/
theorem C4_parser_fragmentation :
    (∀ (ps : ParserSt) (parts : List (List Char)),
        parse_chunks ps parts = parse_chunk ps parts.flatten) ∧
    (parse_chunks { st := ParseState.STATE_NORMAL, buf := [] }
        [['r'], [':'], ['1', '5'], ['0', '0'], ['x']]).2 =
      [Command.SetTargetRpm 1500, Command.SimpleChar 'x'] :=
  ⟨fun ps parts => parse_chunks_eq_flatten parts ps, by decide⟩

/-- C5 counterexample: processing SetTargetRpm 1500 from manual mode with
nonzero error accumulators leaves the accumulators at their old values (7 and
3), both through exec_command directly and through the byte stream r:1500
terminated by a newline — so SetTargetRpm does not perform the
clear-accumulated-error side effect of SwitchToAutomatic that the claim
includes. -/
theorem C5_counterexample :
    c5State.current_mode ≠ ControlMode.AUTO_MODE ∧
    (exec_command (Command.SetTargetRpm 1500) c5State).pid_integral = 7 ∧
    (feed_bytes c5State ['r', ':', '1', '5', '0', '0', '\n']).pid_integral = 7 ∧
    (feed_bytes c5State ['r', ':', '1', '5', '0', '0', '\n']).pid_last_error = 3 ∧
    ((7 : ℚ) ≠ 0) := by
  decide

/-- C5 amended: when the mode is not already AUTO_MODE, SetTargetRpm n sets
desired_rpm to n, switches to AUTO_MODE, sets motor_running, asserts master
enable, and ensures a direction output is active — but it does not clear the
error accumulators: pid_integral and pid_last_error keep their previous
values. -/
theorem C5_settarget_entry_effects (s : SrvState) (n : Int)
    (h : s.current_mode ≠ ControlMode.AUTO_MODE) :
    (exec_command (Command.SetTargetRpm n) s).desired_rpm = n ∧
    (exec_command (Command.SetTargetRpm n) s).current_mode = ControlMode.AUTO_MODE ∧
    (exec_command (Command.SetTargetRpm n) s).motor_running = true ∧
    (exec_command (Command.SetTargetRpm n) s).master_on = true ∧
    ((exec_command (Command.SetTargetRpm n) s).dir_a = true ∨
      (exec_command (Command.SetTargetRpm n) s).dir_b = true) ∧
    (exec_command (Command.SetTargetRpm n) s).pid_integral = s.pid_integral ∧
    (exec_command (Command.SetTargetRpm n) s).pid_last_error = s.pid_last_error := by
  simp only [exec_command]
  rw [if_pos h]
  refine ⟨rfl, rfl, rfl, rfl, ?_, rfl, rfl⟩
  dsimp only
  split_ifs with hdir
  · exact Or.inr rfl
  · rcases Bool.eq_false_or_eq_true s.dir_a with hda | hda
    · exact Or.inl hda
    · rcases Bool.eq_false_or_eq_true s.dir_b with hdb | hdb
      · exact Or.inr hdb
      · exact absurd ⟨hda, hdb⟩ hdir

theorem C5_witness :
    (exec_command (Command.SetTargetRpm 1500) c5State).desired_rpm = 1500 ∧
    (exec_command (Command.SetTargetRpm 1500) c5State).pid_integral = c5State.pid_integral := by
  have h := C5_settarget_entry_effects c5State 1500 (by decide)
  exact ⟨h.1, h.2.2.2.2.2.1⟩

/-- C6 counterexample: in automatic mode with master power on, target 0 and
smoothed rpm 1000, a control tick moves commanded power from 50 to 45, not to
0 — the final server has no immediate-stop special case for a zero target. -/
theorem C6_counterexample :
    c6State.current_mode = ControlMode.AUTO_MODE ∧
    c6State.master_on = true ∧
    c6State.desired_rpm = 0 ∧
    c6State.speed_percent = 50 ∧
    (update_pid_controller c6State).speed_percent = 45 ∧ ((45 : Int) ≠ 0) := by
  refine ⟨rfl, rfl, rfl, rfl, ?_, by decide⟩
  norm_num [update_pid_controller, truncQ, c6State, initState, stop_all_activity]

theorem truncQ_nonpos (x : ℚ) (h : x ≤ 0) : truncQ x ≤ 0 := by
  unfold truncQ
  split_ifs with h0
  · have hx : x = 0 := le_antisymm h h0
    simp [hx]
  · have h2 : (0 : ℚ) ≤ -x := by linarith
    have h3 : 0 ≤ ⌊-x⌋ := Int.floor_nonneg.mpr h2
    omega

/-- C6 amended: on the final server a control tick with target_rpm 0 (in
automatic mode, motor running, nonpositive integral accumulator, nonnegative
smoothed rpm, power within 0..100) never raises power and lowers it by at
most 5 points, clamped at 0 — power reaches 0 only gradually over ticks.
The immediate-stop behavior the claim describes exists in the hysteretic
variant (src/unnamed/part_002), whose control loop commands power 0 in the
same tick whenever the target is 0. -/
theorem C6_zero_target :
    (∀ s : SrvState, s.current_mode = ControlMode.AUTO_MODE → s.motor_running = true →
      s.desired_rpm = 0 → s.pid_integral ≤ 0 → 0 ≤ s.rpm_smooth →
      0 ≤ s.speed_percent → s.speed_percent ≤ 100 →
      (update_pid_controller s).speed_percent ≤ s.speed_percent ∧
      s.speed_percent - 5 ≤ (update_pid_controller s).speed_percent ∧
      0 ≤ (update_pid_controller s).speed_percent) ∧
    (∀ s : SrvState, s.current_mode = ControlMode.AUTO_MODE → s.motor_running = true →
      s.desired_rpm = 0 → (update_control_loop_p002 s).speed_percent = 0) := by
  constructor
  · intro s hmode hrun htgt hint hsm h0 h1
    have hguard : ¬(s.current_mode ≠ ControlMode.AUTO_MODE ∨ s.motor_running = false) := by
      simp [hmode, hrun]
    have herr : (s.desired_rpm : ℚ) - (s.rpm_smooth : ℚ) ≤ 0 := by
      rw [htgt]
      simp only [Int.cast_zero, zero_sub, neg_nonpos]
      exact_mod_cast hsm
    have hi1 : s.pid_integral + ((s.desired_rpm : ℚ) - (s.rpm_smooth : ℚ)) ≤ 0 :=
      add_nonpos hint herr
    have h50 : ¬(s.pid_integral + ((s.desired_rpm : ℚ) - (s.rpm_smooth : ℚ)) > 50) := by
      linarith
    unfold update_pid_controller
    rw [if_neg hguard]
    dsimp only
    rw [if_neg h50]
    rcases lt_or_le (s.pid_integral + ((s.desired_rpm : ℚ) - (s.rpm_smooth : ℚ))) (-50)
      with hc | hc
    · rw [if_pos hc]
      have hout : (1 / 100 : ℚ) * ((s.desired_rpm : ℚ) - (s.rpm_smooth : ℚ)) +
          (1 / 200) * (-50) +
          0 * (((s.desired_rpm : ℚ) - (s.rpm_smooth : ℚ)) - s.pid_last_error) ≤ 0 := by
        linarith
      have hchg := truncQ_nonpos _ hout
      split_ifs <;> omega
    · rw [if_neg (not_lt.mpr hc)]
      have hout : (1 / 100 : ℚ) * ((s.desired_rpm : ℚ) - (s.rpm_smooth : ℚ)) +
          (1 / 200) * (s.pid_integral + ((s.desired_rpm : ℚ) - (s.rpm_smooth : ℚ))) +
          0 * (((s.desired_rpm : ℚ) - (s.rpm_smooth : ℚ)) - s.pid_last_error) ≤ 0 := by
        linarith
      have hchg := truncQ_nonpos _ hout
      split_ifs <;> omega
  · intro s hmode hrun htgt
    have hguard : ¬(s.current_mode ≠ ControlMode.AUTO_MODE ∨ s.motor_running = false) := by
      simp [hmode, hrun]
    unfold update_control_loop_p002
    rw [if_neg hguard]
    dsimp only
    rw [if_pos htgt]
    norm_num

theorem C6_witness :
    ((update_pid_controller c6State).speed_percent ≤ c6State.speed_percent ∧
      c6State.speed_percent - 5 ≤ (update_pid_controller c6State).speed_percent ∧
      0 ≤ (update_pid_controller c6State).speed_percent) ∧
    (update_control_loop_p002 c6State).speed_percent = 0 :=
  ⟨C6_zero_target.1 c6State rfl rfl rfl (by decide) (by decide) (by decide) (by decide),
   C6_zero_target.2 c6State rfl rfl rfl⟩

/-- C7: a Faster or Slower command processed while the mode is AUTO_MODE
leaves speed_percent unchanged, and an IncrementTarget or DecrementTarget
command processed while the mode is MANUAL_MODE leaves desired_rpm
unchanged. -/
theorem C7_mode_gating (s : SrvState) :
    (s.current_mode = ControlMode.AUTO_MODE →
      (process_command 'f' s).speed_percent = s.speed_percent ∧
      (process_command 'd' s).speed_percent = s.speed_percent) ∧
    (s.current_mode = ControlMode.MANUAL_MODE →
      (process_command '+' s).desired_rpm = s.desired_rpm ∧
      (process_command '-' s).desired_rpm = s.desired_rpm) := by
  constructor <;> intro h <;> constructor <;> simp [process_command, h]

theorem C7_witness :
    (process_command 'f' c7State).speed_percent = c7State.speed_percent ∧
    (process_command '+' initState).desired_rpm = initState.desired_rpm :=
  ⟨((C7_mode_gating c7State).1 rfl).1, ((C7_mode_gating initState).2 rfl).1⟩

set_option maxHeartbeats 1000000 in
/-- C8: the Stop command resets the motor to the neutral state (power 0, PWM
duty 0, master enable off) while leaving current_mode unchanged, and no
process_command byte other than the explicit mode-switch commands a and m
ever changes current_mode. -/
theorem C8_stop_preserves_mode (s : SrvState) :
    (process_command 'x' s).current_mode = s.current_mode ∧
    (process_command 'x' s).speed_percent = 0 ∧
    (process_command 'x' s).master_on = false ∧
    (process_command 'x' s).pwm_duty = 0 ∧
    (∀ c : Char, c ≠ 'a' → c ≠ 'm' →
      (process_command c s).current_mode = s.current_mode) := by
  refine ⟨rfl, rfl, rfl, rfl, ?_⟩
  intro c ha hm
  unfold process_command
  split_ifs <;> rfl

theorem C8_witness :
    (process_command 'x' c7State).current_mode = c7State.current_mode ∧
    (process_command 'x' c7State).speed_percent = 0 ∧
    (process_command 'q' c7State).current_mode = c7State.current_mode :=
  ⟨(C8_stop_preserves_mode c7State).1, (C8_stop_preserves_mode c7State).2.1,
   (C8_stop_preserves_mode c7State).2.2.2.2 'q' (by decide) (by decide)⟩

/-- C9 counterexample: the parsed token r:4294967295 (a 10-digit buffer, so
within the claim's 15-character bound) sets desired_rpm to -1, because atoi
wraps the value to a signed 32-bit int — target_rpm can become negative. -/
theorem C9_counterexample :
    (feed_bytes initState
        ['r', ':', '4', '2', '9', '4', '9', '6', '7', '2', '9', '5', '\n']).desired_rpm
      = -1 ∧
    ¬(0 ≤ (feed_bytes initState
        ['r', ':', '4', '2', '9', '4', '9', '6', '7', '2', '9', '5', '\n']).desired_rpm) := by
  decide

/-- C9 amended: every process_command keeps desired_rpm nonnegative
(DecrementTarget floors at 0), executing SetTargetRpm n with a nonnegative n
keeps it nonnegative, and atoi returns the exact (hence nonnegative) buffer
value whenever that value is below 2 to the 31 — so target_rpm stays
nonnegative as long as parsed digit buffers stay below 2147483648; a buffer
whose value is at least that (possible with 10 to 15 digits, see the
counterexample) wraps and can make target_rpm negative. -/
theorem C9_target_nonneg :
    (∀ (s : SrvState) (c : Char),
        0 ≤ s.desired_rpm → 0 ≤ (process_command c s).desired_rpm) ∧
    (∀ (s : SrvState) (n : Int),
        0 ≤ n → 0 ≤ (exec_command (Command.SetTargetRpm n) s).desired_rpm) ∧
    (∀ buf : List Char, digitsVal buf < 2147483648 →
        atoi buf = (digitsVal buf : Int) ∧ 0 ≤ atoi buf) := by
  refine ⟨?_, ?_, ?_⟩
  · intro s c h
    by_cases h1 : c = 's'
    · subst h1; simpa [process_command] using h
    by_cases h2 : c = 'x'
    · subst h2; simp [process_command, stop_all_activity]
    by_cases h3 : c = 'c'
    · subst h3; simpa [process_command] using h
    by_cases h4 : c = 'v'
    · subst h4; simpa [process_command] using h
    by_cases h5 : c = 'f'
    · subst h5
      simp only [process_command, Char.reduceEq, reduceIte, apply_ite SrvState.desired_rpm]
      split_ifs <;> omega
    by_cases h6 : c = 'd'
    · subst h6
      simp only [process_command, Char.reduceEq, reduceIte, apply_ite SrvState.desired_rpm]
      split_ifs <;> omega
    by_cases h7 : c = 'a'
    · subst h7
      simp only [process_command, Char.reduceEq, reduceIte]
      split_ifs <;> omega
    by_cases h8 : c = 'm'
    · subst h8; simpa [process_command] using h
    by_cases h9 : c = '+'
    · subst h9
      simp only [process_command, Char.reduceEq, reduceIte, apply_ite SrvState.desired_rpm]
      split_ifs <;> omega
    by_cases h10 : c = '-'
    · subst h10
      simp only [process_command, Char.reduceEq, reduceIte, apply_ite SrvState.desired_rpm]
      split_ifs <;> omega
    have hdef : process_command c s = s := by
      unfold process_command
      rw [if_neg h1, if_neg h2, if_neg h3, if_neg h4, if_neg h5, if_neg h6,
          if_neg h7, if_neg h8, if_neg h9, if_neg h10]
    rw [hdef]
    exact h
  · intro s n h
    unfold exec_command
    simp only [apply_ite SrvState.desired_rpm]
    split_ifs <;> omega
  · intro buf h
    have h2 : digitsVal buf % 4294967296 = digitsVal buf := Nat.mod_eq_of_lt (by omega)
    unfold atoi toInt32
    dsimp only
    rw [h2, if_pos h]
    exact ⟨rfl, Int.natCast_nonneg _⟩

theorem C9_witness :
    0 ≤ (process_command '-' c7State).desired_rpm ∧
    0 ≤ (exec_command (Command.SetTargetRpm 1500) initState).desired_rpm ∧
    atoi ['7'] = (digitsVal ['7'] : Int) ∧ 0 ≤ atoi ['7'] :=
  ⟨C9_target_nonneg.1 c7State '-' (by decide),
   C9_target_nonneg.2.1 initState 1500 (by decide),
   (C9_target_nonneg.2.2 ['7'] (by decide)).1,
   (C9_target_nonneg.2.2 ['7'] (by decide)).2⟩

/-- C10: a byte that is none of the ten recognized command characters and not
r, processed in the NORMAL parser state, leaves the entire state unchanged;
in the AWAIT_SEPARATOR state a second r is silently discarded (only the
parser state returns to NORMAL, nothing else changes); and the byte sequence
rr:123 leaves the whole state — in particular desired_rpm — unchanged. -/
theorem C10_unrecognized_noop :
    (∀ (s : SrvState) (c : Char), s.p_state = ParseState.STATE_NORMAL →
        c ∉ (['s', 'x', 'c', 'v', 'f', 'd', 'a', 'm', '+', '-', 'r'] : List Char) →
        parse_input_byte c s = s) ∧
    (∀ s : SrvState, s.p_state = ParseState.STATE_WAIT_COLON →
        parse_input_byte 'r' s = { s with p_state := ParseState.STATE_NORMAL }) ∧
    (∀ s : SrvState, s.p_state = ParseState.STATE_NORMAL →
        feed_bytes s ['r', 'r', ':', '1', '2', '3'] = s) := by
  have hnoop : ∀ (s : SrvState) (c : Char),
      c ∉ (['s', 'x', 'c', 'v', 'f', 'd', 'a', 'm', '+', '-', 'r'] : List Char) →
      process_command c s = s := by
    intro s c hc
    simp only [List.mem_cons, not_or] at hc
    obtain ⟨h1, h2, h3, h4, h5, h6, h7, h8, h9, h10, h11, -⟩ := hc
    unfold process_command
    split_ifs <;> rfl
  refine ⟨?_, ?_, ?_⟩
  · intro s c hst hc
    have hr : c ≠ 'r' := by
      simp only [List.mem_cons, not_or] at hc
      exact hc.2.2.2.2.2.2.2.2.2.2.1
    obtain ⟨sp, rc, rp, sm, mo, mr, dr, pin, ple, pst, buf, ma, da, db, pd⟩ := s
    simp only at hst
    subst hst
    simp only [parse_input_byte, parse_step, if_neg hr, List.foldl, exec_command]
    exact hnoop _ c hc
  · intro s hst
    obtain ⟨sp, rc, rp, sm, mo, mr, dr, pin, ple, pst, buf, ma, da, db, pd⟩ := s
    simp only at hst
    subst hst
    rfl
  · intro s hst
    obtain ⟨sp, rc, rp, sm, mo, mr, dr, pin, ple, pst, buf, ma, da, db, pd⟩ := s
    simp only at hst
    subst hst
    rfl

theorem C10_witness :
    parse_input_byte 'q' initState = initState ∧
    feed_bytes initState ['r', 'r', ':', '1', '2', '3'] = initState :=
  ⟨C10_unrecognized_noop.1 initState 'q' rfl (by decide),
   C10_unrecognized_noop.2.2 initState rfl⟩
